import Mathlib

/-!
Verification of the climateiq-pipelines orchestration and aggregation logic.

This file gives a shallow embedding, in Lean 4, of the core logic of the
climateiq-pipelines repository and proves properties of it:

* `cloud_functions/climateiq_merge_scenario_predictions_cf/main.py`
  (the scenario merge coordinator and the per-chunk scenario merger), and
* `cloud_functions/climateiq_spatialize_chunk_predictions_cf/main.py`
  (the grid projector, the neighbor resolver and the hex aggregator).

External collaborators (object storage, Firestore, the CRS transform and the
H3 geometry primitives) are modelled as explicit oracle functions passed in as
arguments, so that every definition remains executable.  Machine floats are
modelled as exact rationals, and Python exceptions as `Except` results.

The file is organised as: definitions (the embedding and concrete fixtures),
then helper lemmas, then the main theorems.
-/

set_option maxHeartbeats 1000000

deriving instance DecidableEq for Except

namespace ClimateIQ

/-! ## Embedding of climateiq_merge_scenario_predictions_cf/main.py -/

/-- A row of a per-(scenario, chunk) input CSV.  The files carry the header
`h3_index,prediction` and are read with `csv.DictReader`; the merger accesses
exactly the two fields `row["h3_index"]` and `row["prediction"]`. -/
structure Row where
  h3_index : String
  prediction : String
  deriving DecidableEq, Repr

/-- Python `set(xs) <= set(ys)` on the string lists `xs`, `ys`. -/
def set_subset (xs ys : List String) : Bool :=
  xs.all (fun x => ys.contains x)

/-- Python `set(xs) == set(ys)`. -/
def set_eq (xs ys : List String) : Bool :=
  set_subset xs ys && set_subset ys xs

/-- Python `set(xs) > set(ys)`: proper superset. -/
def set_proper_superset (xs ys : List String) : Bool :=
  set_subset ys xs && !(set_subset xs ys)

/-- Embedding of `_files_complete` (main.py lines 268-308).  The mapping
`chunk_ids_by_scenario_id` is an association list (one entry per scenario id,
as produced by `_get_chunk_ids_to_scenario_id` from the blob listing).
`ValueError`s become `Except.error` carrying the exact message. -/
def files_complete (expected_scenario_ids : List String)
    (expected_num_chunks : Nat)
    (chunk_ids_by_scenario_id : List (String × List String)) :
    Except String Bool :=
  let actual_scenario_ids := chunk_ids_by_scenario_id.map Prod.fst
  if set_eq actual_scenario_ids expected_scenario_ids &&
      chunk_ids_by_scenario_id.all
        (fun kv => kv.2.length == expected_num_chunks) then
    .ok true
  else if set_proper_superset actual_scenario_ids expected_scenario_ids then
    .error "There are more scenario_ids in GCS than expected."
  else if chunk_ids_by_scenario_id.any
      (fun kv => expected_num_chunks < kv.2.length) then
    .error "There are more chunks in GCS than expected for one or more scenarios."
  else
    .ok false

/-! ### The per-chunk scenario merger (`_merge_single_chunk`, main.py 369-421)

Object storage is modelled as a function from object names to the parsed CSV
rows of the blob, `none` meaning the blob does not exist. -/

/-- The input object name for one (scenario, chunk) pair, as interpolated at
main.py lines 383-386. -/
def chunk_object_name (batch_id prediction_type model_id study_area_name
    scenario_id chunk_id : String) : String :=
  batch_id ++ "/" ++ prediction_type ++ "/" ++ model_id ++ "/" ++
    study_area_name ++ "/" ++ scenario_id ++ "/" ++ chunk_id ++ ".csv"

/-- Embedding of `_get_file_content` (main.py 311-332): raises `ValueError` when the blob
does not exist, otherwise returns the parsed CSV rows. -/
def get_file_content (bucket : String → Option (List Row))
    (object_name : String) : Except String (List Row) :=
  match bucket object_name with
  | none => .error ("Missing predictions for " ++ object_name)
  | some rows => .ok rows

/-- Python dict assignment `d[k] = v`: replace the value in place if the key
is present (keeping its insertion position), otherwise append the binding. -/
def assoc_update {α : Type} (l : List (String × α)) (k : String) (v : α) :
    List (String × α) :=
  match l with
  | [] => [(k, v)]
  | (k', v') :: rest =>
    if k' == k then (k, v) :: rest else (k', v') :: assoc_update rest k v

/-- Python dict lookup `d.get(k)`. -/
def assoc_lookup {α : Type} (l : List (String × α)) (k : String) : Option α :=
  match l with
  | [] => none
  | (k', v') :: rest => if k' == k then some v' else assoc_lookup rest k

/-- One step of `predictions_by_cell_code[row["h3_index"]][scenario_id] =
row["prediction"]` (main.py 393-396): `predictions_by_cell_code` is a
`defaultdict(dict)`, modelled as an ordered association list of ordered
association lists. -/
def add_prediction (d : List (String × List (String × String)))
    (cell scenario_id v : String) : List (String × List (String × String)) :=
  match d with
  | [] => [(cell, [(scenario_id, v)])]
  | (c, inner) :: rest =>
    if c == cell then (c, assoc_update inner scenario_id v) :: rest
    else (c, inner) :: add_prediction rest cell scenario_id v

/-- The double loop of main.py 394-396, over the per-scenario file contents in
scenario order, then over the rows of each file in file order. -/
def build_predictions_by_cell_code (contents : List (String × List Row)) :
    List (String × List (String × String)) :=
  contents.foldl
    (fun d sc =>
      sc.2.foldl (fun d row => add_prediction d row.h3_index sc.1 row.prediction) d)
    []

/-- The value recorded for hex index `cell` and scenario `s` in the grouped
prediction dict. -/
def lookup2 (d : List (String × List (String × String))) (cell s : String) :
    Option String :=
  (assoc_lookup d cell).bind (fun inner => assoc_lookup inner s)

/-- The read fan-out of main.py 380-396: one `_get_file_content` per scenario
id; `futures.wait` then `future.result()` in scenario order surfaces the first
failure in that order. -/
def read_scenario_contents (bucket : String → Option (List Row))
    (batch_id prediction_type model_id study_area_name chunk_id : String) :
    List String → Except String (List (String × List Row))
  | [] => .ok []
  | scenario_id :: rest => do
    let rows ← get_file_content bucket
      (chunk_object_name batch_id prediction_type model_id study_area_name
        scenario_id chunk_id)
    let others ← read_scenario_contents bucket batch_id prediction_type
      model_id study_area_name chunk_id rest
    pure ((scenario_id, rows) :: others)

/-- The merged output CSV: header row plus data rows, a data row holding the
first column (the hex index) and then the remaining columns in header order. -/
structure OutputCsv where
  header : List String
  rows : List (String × List String)
  deriving DecidableEq, Repr

/-- The writer loop of main.py 412-421: for every cell code in dict order,
raise `ValueError` if any scenario id has no value for it, otherwise emit the
row with the scenario columns in `fieldnames` order. -/
def write_rows (scenario_ids : List String) :
    List (String × List (String × String)) →
    Except String (List (String × List String))
  | [] => .ok []
  | (cell, preds) :: rest =>
    let missing := scenario_ids.filter (fun s => (assoc_lookup preds s).isNone)
    if missing.isEmpty then do
      let tail ← write_rows scenario_ids rest
      pure ((cell, scenario_ids.map (fun s => (assoc_lookup preds s).getD "")) :: tail)
    else
      .error ("Not found: Missing predictions for " ++ cell ++ " for " ++
        String.intercalate ", " missing ++ ".")

/-- Embedding of `_merge_single_chunk` (main.py 369-421): read every scenario file for
the chunk, group predictions by cell code, write the merged CSV with
`fieldnames=["cell_code"] + scenario_ids`. -/
def merge_single_chunk (input_bucket : String → Option (List Row))
    (batch_id prediction_type model_id study_area_name : String)
    (scenario_ids : List String) (chunk_id : String) :
    Except String OutputCsv := do
  let contents ← read_scenario_contents input_bucket batch_id prediction_type
    model_id study_area_name chunk_id scenario_ids
  let rows ← write_rows scenario_ids (build_predictions_by_cell_code contents)
  pure ⟨"cell_code" :: scenario_ids, rows⟩

/-- The value of the merged output at hex index `cell` and scenario column
`scenario_id` (the columns being laid out in `scenario_ids` order). -/
def output_cell (out : OutputCsv) (scenario_ids : List String)
    (cell scenario_id : String) : Option String :=
  (assoc_lookup out.rows cell).bind
    (fun vals => assoc_lookup (scenario_ids.zip vals) scenario_id)

/-! ### The lock lifecycle of the coordinator (`merge_scenario_predictions`,
main.py 169-219)

After `_set_lock` succeeds (line 176), the coordinator computes the chunk
partition, submits the workers inside the `ProcessPoolExecutor` context
manager and waits (lines 178-194); none of this is guarded by a `try` or
`finally`, so an exception raised there propagates with the lock still held.
The loop at lines 196-209 then collects the result of each future in submission
order: the first `ValueError` deletes the lock, logs and returns; the first
exception of any other class deletes the lock and re-raises; if every future
succeeded, line 211 deletes the lock.  This phase is embedded as a function
of the exception (if any) raised during the dispatch phase and of the
per-worker outcomes in submission order. -/

/-- A Python exception, classified the way lines 203-209 classify it. -/
inductive WorkerExc
  | value_error (msg : String)
  | unexpected (msg : String)
  deriving DecidableEq, Repr

/-- How one invocation of the coordinator terminates after the lock has been
acquired: whether `_delete_lock` ran before exit, and which exception (if
any) propagates out of `merge_scenario_predictions`. -/
structure CoordinatorExit where
  lock_deleted : Bool
  raised : Option WorkerExc
  deriving DecidableEq, Repr

/-- The result-collection loop, main.py 196-211.  Each list entry is the
outcome `future.result()` reports for one worker (`none` = success). -/
def collect_worker_results : List (Option WorkerExc) → CoordinatorExit
  | [] => ⟨true, none⟩
  | none :: rest => collect_worker_results rest
  | some (.value_error _) :: _ => ⟨true, none⟩
  | some (.unexpected msg) :: _ => ⟨true, some (.unexpected msg)⟩

/-- Embedding of `merge_scenario_predictions` from lock acquisition (after line 176) to
exit.  `dispatch_exc` is the exception, if any, raised during lines 178-194
(partitioning, submission, waiting), which no handler covers. -/
def merge_after_lock_acquired (dispatch_exc : Option WorkerExc)
    (results : List (Option WorkerExc)) : CoordinatorExit :=
  match dispatch_exc with
  | some e => ⟨false, some e⟩
  | none => collect_worker_results results

/-! ## Embedding of climateiq_spatialize_chunk_predictions_cf/main.py -/

/-- Study-area metadata, after `_get_study_area_metadata` has validated the
required fields `cell_size`, `crs`, `chunk_x_count`, `chunk_y_count`.  The
`crs` string is only ever handed to the external CRS transform, which is
abstracted as the `to_global` oracle, so it is not recorded here. -/
structure StudyArea where
  cell_size : ℚ
  chunk_x_count : Int
  chunk_y_count : Int
  deriving DecidableEq, Repr

/-- Chunk metadata, after validation of the required fields. -/
structure Chunk where
  row_count : Nat
  col_count : Nat
  x_ll_corner : ℚ
  y_ll_corner : ℚ
  x_index : Int
  y_index : Int
  deriving DecidableEq, Repr

/-- A raw chunk metadata document as stored in Firestore: a dict in which any
of the required fields may be absent. -/
structure ChunkDoc where
  row_count : Option Nat
  col_count : Option Nat
  x_ll_corner : Option ℚ
  y_ll_corner : Option ℚ
  x_index : Option Int
  y_index : Option Int
  deriving DecidableEq, Repr

/-- Embedding of `_chunk_metadata_fields_valid` (main.py 201-217): all six required fields
are present. -/
def chunk_metadata_fields_valid (chunk_metadata : ChunkDoc) : Bool :=
  chunk_metadata.row_count.isSome && chunk_metadata.col_count.isSome &&
    chunk_metadata.x_ll_corner.isSome && chunk_metadata.y_ll_corner.isSome &&
    chunk_metadata.x_index.isSome && chunk_metadata.y_index.isSome

/-- Extraction of the validated record from a raw document; succeeds exactly
when `_chunk_metadata_fields_valid` holds. -/
def ChunkDoc.validate (d : ChunkDoc) : Option Chunk := do
  let rc ← d.row_count
  let cc ← d.col_count
  let xll ← d.x_ll_corner
  let yll ← d.y_ll_corner
  let xi ← d.x_index
  let yi ← d.y_index
  pure ⟨rc, cc, xll, yll, xi, yi⟩

/-- One spatialized model prediction: a row of the DataFrame built by
`_build_spatialized_model_predictions`, with `lat`/`lon` the reprojected cell
center. -/
structure SpatializedPoint where
  lat : ℚ
  lon : ℚ
  prediction : ℚ
  deriving DecidableEq, Repr

/-- The flattened meshgrid of source-CRS cell centers (main.py 266-280):
entry `row * col_count + col` is
`(x_ll_corner + (col + 0.5) * cell_size, y_ll_corner + (row + 0.5) * cell_size)`. -/
def cell_centers (sa : StudyArea) (ck : Chunk) : List (ℚ × ℚ) :=
  (List.range ck.row_count).flatMap (fun (row : Nat) =>
    (List.range ck.col_count).map (fun (col : Nat) =>
      (ck.x_ll_corner + ((col : ℚ) + 1/2) * sa.cell_size,
       ck.y_ll_corner + ((row : ℚ) + 1/2) * sa.cell_size)))

/-- Embedding of `_build_spatialized_model_predictions` (main.py 250-298).  Here `to_global` is
the external `to_crs` reprojection, taking a source-CRS `(x, y)` pair to a
global-CRS `(lon, lat)` pair.  The raster rows are reversed (`np.flipud`) and
flattened; the `pandas.DataFrame` constructor raises `ValueError` when the
coordinate columns and the flattened prediction column differ in length,
which is the only shape check this code performs. -/
def build_spatialized_model_predictions (sa : StudyArea) (ck : Chunk)
    (to_global : ℚ × ℚ → ℚ × ℚ) (predictions : List (List ℚ)) :
    Except String (List SpatializedPoint) :=
  let coords := cell_centers sa ck
  let aligned_predictions := predictions.reverse.flatten
  if coords.length = aligned_predictions.length then
    .ok (List.zipWith
      (fun xy v => { lat := (to_global xy).2, lon := (to_global xy).1,
                     prediction := v })
      coords aligned_predictions)
  else
    .error "All arrays must be of the same length"

/-- A row of the aggregation input frame restricted to the two columns the
aggregation reads: the H3 index of the point and its prediction value. -/
structure SpatPred where
  h3_index : String
  prediction : ℚ
  deriving DecidableEq, Repr

/-- Embedding of `groupby(["h3_index"]).prediction.agg("max")` (main.py 547-549 and
644-646): one entry per distinct H3 index (pandas returns group keys in
sorted order), holding the maximum prediction among the rows of the group. -/
def groupby_max (rows : List SpatPred) : List (String × ℚ) :=
  (((rows.map SpatPred.h3_index).dedup).mergeSort (fun a b => a ≤ b)).filterMap
    (fun k =>
      (((rows.filter (fun r => r.h3_index == k)).map SpatPred.prediction).max?).map
        (fun v => (k, v)))

/-- The `ValueError`s that `_aggregate_h3_predictions` and its callees raise,
tagged by the condition that produced them (in Python they are all
`ValueError`s with distinct messages). -/
inductive AggError
  | missing_neighbor (x y : Int)
  | invalid_neighbor_metadata (x y : Int)
  | missing_predictions (object_name : String)
  | invalid_predictions (msg : String)
  deriving DecidableEq, Repr

/-- The external collaborators of the aggregator.  `Poly` is the type of
shapely geometries (H3 cell boundary polygons and reprojected chunk
boundaries).

* `lookup_chunk` is the Firestore query of main.py 577-586: the first chunk
  document (id and raw metadata) whose `x_index`/`y_index` equal the given
  position, if any;
* `chunk_boundary` is `_get_chunk_boundary` (main.py 406-435), external
  geometry plus reprojection;
* `intersects` is `shapely.intersects`;
* `read_predictions` is `_read_neighbor_chunk_predictions` →
  `_read_chunk_predictions` by neighbor chunk id (a missing or malformed
  predictions file raises `ValueError`);
* `geo_to_h3` is `h3.geo_to_h3(lat, lon, H3_LEVEL)`;
* `to_global` is the CRS reprojection used by the grid projector. -/
structure AggEnv (Poly : Type) where
  lookup_chunk : Int → Int → Option (String × ChunkDoc)
  chunk_boundary : StudyArea → Chunk → Poly
  intersects : Poly → Poly → Bool
  read_predictions : String → Except AggError (List (List ℚ))
  geo_to_h3 : ℚ → ℚ → String
  to_global : ℚ × ℚ → ℚ × ℚ

/-- Reading and spatializing one neighbor chunk (main.py 616-630): fetch its
raster, run the grid projector on it, then assign each point its H3 index. -/
def neighbor_spatialized {Poly : Type} (env : AggEnv Poly) (sa : StudyArea)
    (nck : Chunk) (neighbor_chunk_id : String) :
    Except AggError (List SpatPred) := do
  let preds ← env.read_predictions neighbor_chunk_id
  match build_spatialized_model_predictions sa nck env.to_global preds with
  | .error e => .error (.invalid_predictions e)
  | .ok pts =>
    pure (pts.map (fun p => ⟨env.geo_to_h3 p.lat p.lon, p.prediction⟩))

/-- One iteration of the neighbor loop (main.py 568-642) at grid position
`pos`, with `acc` the accumulated `spatialized_predictions` frame.  Note the
kept neighbor points are those whose H3 index occurs in the *accumulated*
frame (`isin(spatialized_predictions["h3_index"])` after reassignment), and
are appended to it. -/
def process_neighbor {Poly : Type} (env : AggEnv Poly) (sa : StudyArea)
    (boundary_h3_cells : List Poly) (acc : List SpatPred) (pos : Int × Int) :
    Except AggError (List SpatPred) :=
  if pos.1 < 0 || pos.2 < 0 || sa.chunk_x_count ≤ pos.1 ||
      sa.chunk_y_count ≤ pos.2 then
    .ok acc
  else
    match env.lookup_chunk pos.1 pos.2 with
    | none => .error (.missing_neighbor pos.1 pos.2)
    | some (neighbor_chunk_id, doc) =>
      match doc.validate with
      | none => .error (.invalid_neighbor_metadata pos.1 pos.2)
      | some nck =>
        if boundary_h3_cells.any
            (fun c => env.intersects c (env.chunk_boundary sa nck)) then
          (neighbor_spatialized env sa nck neighbor_chunk_id).map
            (fun npts =>
              acc ++ npts.filter
                (fun p => (acc.map SpatPred.h3_index).contains p.h3_index))
        else
          .ok acc

/-- The 8 axis/diagonal-adjacent grid positions (main.py 558-567).  Python
iterates a set literal of these pairs, whose order is an unspecified but
fixed permutation; the embedding fixes the order of the literal. -/
def neighbor_positions (ck : Chunk) : List (Int × Int) :=
  [(ck.x_index - 1, ck.y_index + 1), (ck.x_index, ck.y_index + 1),
   (ck.x_index + 1, ck.y_index + 1), (ck.x_index - 1, ck.y_index),
   (ck.x_index + 1, ck.y_index), (ck.x_index - 1, ck.y_index - 1),
   (ck.x_index, ck.y_index - 1), (ck.x_index + 1, ck.y_index - 1)]

/-- Embedding of `_aggregate_h3_predictions` (main.py 513-647): if the chunk has no
boundary H3 cells, group its own points immediately; otherwise run the
neighbor loop and group the accumulated points.  All group aggregation uses
`"max"`. -/
def aggregate_h3_predictions {Poly : Type} (env : AggEnv Poly)
    (sa : StudyArea) (ck : Chunk) (boundary_h3_cells : List Poly)
    (spatialized_predictions : List SpatPred) :
    Except AggError (List (String × ℚ)) :=
  if boundary_h3_cells.length = 0 then
    .ok (groupby_max spatialized_predictions)
  else
    ((neighbor_positions ck).foldlM
      (process_neighbor env sa boundary_h3_cells)
      spatialized_predictions).map groupby_max

/-! ## Concrete fixtures used by the counterexamples and witnesses -/

/-- A concrete two-scenario input bucket for the C4 theorems. -/
def c4_bucket (object_name : String) : Option (List Row) :=
  if object_name == "batch/flood/model/nyc/s0/chunk0.csv" then
    some [⟨"h300", "0.00"⟩, ⟨"h301", "0.01"⟩]
  else if object_name == "batch/flood/model/nyc/s1/chunk0.csv" then
    some [⟨"h300", "1.00"⟩, ⟨"h301", "1.01"⟩]
  else
    none

/-- A concrete input bucket for the C10 theorems, in which the file of
scenario `s0` carries two rows with the same hex index `h3dup`. -/
def c10_bucket (object_name : String) : Option (List Row) :=
  if object_name == "batch/flood/model/nyc/s0/chunk0.csv" then
    some [⟨"h3dup", "0.10"⟩, ⟨"h3dup", "0.25"⟩]
  else if object_name == "batch/flood/model/nyc/s1/chunk0.csv" then
    some [⟨"h3dup", "1.00"⟩]
  else
    none

/-- Study-area fixture for the C5 theorems. -/
def c5_study_area : StudyArea := ⟨10, 1, 1⟩

/-- Chunk fixture for the C5 theorems: metadata says 2 rows × 3 columns. -/
def c5_chunk : Chunk := ⟨2, 3, 500, 100, 0, 0⟩

/-- Raster fixture for the C5 theorems: actual shape 3 rows × 2 columns,
which mismatches the metadata of `c5_chunk` while having the same number of
elements. -/
def c5_predictions : List (List ℚ) := [[1, 2], [3, 4], [5, 6]]

/-- Study-area fixture for the C6 witness (`cell_size=10`, from the
reference fixture of the spec). -/
def c6_study_area : StudyArea := ⟨10, 1, 1⟩

/-- Chunk fixture for the C6 witness: 2×3 raster at corner `(500, 100)`. -/
def c6_chunk : Chunk := ⟨2, 3, 500, 100, 0, 0⟩

/-- Raster fixture for the C6 witness (pre-flip `[[1,2,3],[4,5,6]]`). -/
def c6_predictions : List (List ℚ) := [[1, 2, 3], [4, 5, 6]]

/-- Study-area fixture for the C3 theorems: `cell_size=5`, a 1×1 chunk grid,
so every adjacent grid position is out of bounds. -/
def c3_study_area : StudyArea := ⟨5, 1, 1⟩

/-- Chunk fixture for the C3 theorems: the 4×6, `cell_size=5` boundary
fixture chunk, at grid position (0, 0). -/
def c3_chunk : Chunk := ⟨4, 6, 0, 0, 0, 0⟩

/-- Aggregator environment fixture for the C3 theorems (the geometry type is
degenerate because no neighbor is ever consulted). -/
def c3_env : AggEnv Unit where
  lookup_chunk := fun _ _ => none
  chunk_boundary := fun _ _ => ()
  intersects := fun _ _ => true
  read_predictions := fun _ => .ok []
  geo_to_h3 := fun _ _ => "h3cell"
  to_global := id

/-- Point fixture for the C3 theorems: two raster cells contributing to the
same (boundary) hex index, with prediction values 1 and 3. -/
def c3_points : List SpatPred := [⟨"h3cell", 1⟩, ⟨"h3cell", 3⟩]

/-- Study-area fixture for the C8 witness: a 2×2 chunk grid. -/
def c8_study_area : StudyArea := ⟨10, 2, 2⟩

/-- Primary chunk fixture for the C8 witness, at grid position (0, 0). -/
def c8_chunk : Chunk := ⟨2, 3, 0, 0, 0, 0⟩

/-- A fully populated neighbor metadata document. -/
def c8_doc_valid : ChunkDoc :=
  ⟨some 2, some 3, some 0, some 0, some 1, some 0⟩

/-- A neighbor metadata document missing `row_count`. -/
def c8_doc_invalid : ChunkDoc :=
  ⟨none, some 3, some 0, some 0, some 1, some 1⟩

/-- Aggregator environment fixture for the C8 witness: the in-bounds
position (0, 1) has no registered chunk, and the in-bounds position (1, 1)
has a chunk whose metadata is missing a required field. -/
def c8_env : AggEnv Unit where
  lookup_chunk := fun x y =>
    if x == 0 && y == 1 then none
    else if x == 1 && y == 1 then some ("chunk_1_1", c8_doc_invalid)
    else some ("chunk_1_0", c8_doc_valid)
  chunk_boundary := fun _ _ => ()
  intersects := fun _ _ => true
  read_predictions := fun _ => .ok []
  geo_to_h3 := fun _ _ => "h3cell"
  to_global := id

/-! ## Helper lemmas and theorems -/

/-- Helper for the C2 theorems: a proper-superset actual scenario set takes
the `TooManyScenarios` branch. -/
theorem files_complete_of_proper_superset (expected : List String) (n : Nat)
    (m : List (String × List String))
    (h : set_proper_superset (m.map Prod.fst) expected = true) :
    files_complete expected n m =
      .error "There are more scenario_ids in GCS than expected." := by
  have hsub : set_subset (m.map Prod.fst) expected = false := by
    unfold set_proper_superset at h
    rcases Bool.and_eq_true .. |>.mp h with ⟨-, h2⟩
    simp only [Bool.not_eq_true'] at h2
    exact h2
  have heq : set_eq (m.map Prod.fst) expected = false := by
    unfold set_eq
    simp [hsub]
  unfold files_complete
  simp [heq, h]

/-- C2 (counterexample): with 2 expected scenario ids and 3 actual scenario
ids present (but the actual set not a superset of the expected one, since
`scenario1` is still missing), `_files_complete` returns `False`
(keep waiting) instead of raising the `TooManyScenarios` error, refuting the
claim that the hard error is raised whenever the actual scenario count
exceeds the expected count. -/
theorem c2_files_complete_counterexample :
    2 < ([("scenario0", ["chunk0", "chunk1"]), ("scenarioA", ["chunk0"]),
          ("scenarioB", ["chunk0"])].map Prod.fst).length ∧
    files_complete ["scenario0", "scenario1"] 2
      [("scenario0", ["chunk0", "chunk1"]), ("scenarioA", ["chunk0"]),
       ("scenarioB", ["chunk0"])] = .ok false := by
  decide

/-- C2 (amended): `_files_complete` raises the `TooManyScenarios` hard error
whenever the actual scenario-id set is a proper superset of the expected
scenario-id set (not merely when its cardinality is larger); and with
expected `{scenario0, scenario1}` and 2 expected chunks, an actual state
containing only `scenario0` with both chunks returns the not-yet-complete
(false) outcome without error. -/
theorem c2_files_complete_amended :
    (∀ (expected : List String) (n : Nat) (m : List (String × List String)),
      set_proper_superset (m.map Prod.fst) expected = true →
      files_complete expected n m =
        .error "There are more scenario_ids in GCS than expected.") ∧
    files_complete ["scenario0", "scenario1"] 2
      [("scenario0", ["chunk0", "chunk1"])] = .ok false := by
  refine ⟨files_complete_of_proper_superset, ?_⟩
  decide

/-- Witness for C2 (amended): a concrete proper-superset state raises the
`TooManyScenarios` error. -/
theorem c2_files_complete_amended_witness :
    set_proper_superset
      ([("scenario0", ["chunk0", "chunk1"]), ("scenario1", ["chunk0", "chunk1"]),
        ("scenario2", ["chunk0", "chunk1"])].map Prod.fst)
      ["scenario0", "scenario1"] = true ∧
    files_complete ["scenario0", "scenario1"] 2
      [("scenario0", ["chunk0", "chunk1"]), ("scenario1", ["chunk0", "chunk1"]),
       ("scenario2", ["chunk0", "chunk1"])] =
      .error "There are more scenario_ids in GCS than expected." :=
  ⟨by decide, c2_files_complete_amended.1 _ _ _ (by decide)⟩

/-- C1 (counterexample): an exception raised between lock acquisition and the
result-collection loop (lines 178-194 of main.py, e.g. while creating the
process pool or submitting workers, a region no `try`/`finally` covers)
propagates with the lock still held, refuting the claim that every exit path
after acquisition deletes the lock. -/
theorem c1_lock_counterexample :
    (merge_after_lock_acquired
      (some (.unexpected "process pool broke during submit")) []).lock_deleted
      = false := by
  decide

/-- C1 (amended): on every exit path that reaches the result-collection loop
(that is, whenever no exception is raised during the dispatch phase), the
lock is deleted before the invocation exits — on success, on a worker
`ValueError`, and on a worker exception of any other class alike. -/
theorem c1_lock_amended (results : List (Option WorkerExc)) :
    (merge_after_lock_acquired none results).lock_deleted = true := by
  show (collect_worker_results results).lock_deleted = true
  induction results with
  | nil => rfl
  | cons r rest ih =>
    match r with
    | none => exact ih
    | some (.value_error _) => rfl
    | some (.unexpected _) => rfl

/-- C9 (counterexample): when an earlier-submitted worker fails with a
`ValueError` and a later worker fails with a non-`ValueError` exception, the
coordinator returns normally (lock deleted, nothing raised): the unexpected
exception is swallowed, refuting the claim that an exception of any other
class always propagates to the caller. -/
theorem c9_error_classification_counterexample :
    some (WorkerExc.unexpected "disk corruption") ∈
      [some (WorkerExc.value_error "Missing predictions for f.csv"),
       some (WorkerExc.unexpected "disk corruption")] ∧
    merge_after_lock_acquired none
      [some (.value_error "Missing predictions for f.csv"),
       some (.unexpected "disk corruption")] = ⟨true, none⟩ := by
  decide

/-- C9 (amended): the coordinator classifies only the *first* failed worker
in submission order: if that failure is a `ValueError` it releases the lock,
logs and returns normally (later failures of any class are never examined);
if it is of any other class it releases the lock and re-raises it.  If every
worker succeeds it releases the lock and returns normally. -/
theorem c9_error_classification_amended :
    (∀ (pre post : List (Option WorkerExc)) (e : WorkerExc),
      (∀ r ∈ pre, r = none) →
      merge_after_lock_acquired none (pre ++ some e :: post) =
        ⟨true, match e with
               | .value_error _ => none
               | .unexpected msg => some (.unexpected msg)⟩) ∧
    (∀ results : List (Option WorkerExc), (∀ r ∈ results, r = none) →
      merge_after_lock_acquired none results = ⟨true, none⟩) := by
  constructor
  · intro pre post e hpre
    show collect_worker_results (pre ++ some e :: post) = _
    induction pre with
    | nil => cases e <;> rfl
    | cons r rest ih =>
      have hr : r = none := hpre r (by simp)
      subst hr
      exact ih (fun r hr => hpre r (by simp [hr]))
  · intro results hall
    show collect_worker_results results = _
    induction results with
    | nil => rfl
    | cons r rest ih =>
      have hr : r = none := hall r (by simp)
      subst hr
      exact ih (fun r hr => hall r (by simp [hr]))

/-- Witness for C9 (amended): a concrete run whose first failure is an
unexpected exception re-raises it after deleting the lock, and a concrete
all-success run deletes the lock and raises nothing. -/
theorem c9_error_classification_amended_witness :
    (∀ r ∈ [(none : Option WorkerExc)], r = none) ∧
    merge_after_lock_acquired none
      ([none] ++ some (.unexpected "oom") :: [none]) =
      ⟨true, some (.unexpected "oom")⟩ ∧
    merge_after_lock_acquired none [none, none] = ⟨true, none⟩ :=
  ⟨by decide,
   c9_error_classification_amended.1 [none] [none] (.unexpected "oom")
     (by decide),
   c9_error_classification_amended.2 [none, none] (by decide)⟩

/-- A key is present in an association list iff looking it up succeeds. -/
theorem assoc_lookup_isSome {α : Type} (l : List (String × α)) (k : String) :
    (assoc_lookup l k).isSome = true ↔ k ∈ l.map Prod.fst := by
  induction l with
  | nil => simp [assoc_lookup]
  | cons hd tl ih =>
    obtain ⟨a, b⟩ := hd
    by_cases hak : a = k
    · subst hak
      simp [assoc_lookup]
    · have : ¬ k = a := fun h => hak h.symm
      simp [assoc_lookup, hak, this, ih]

/-- Dict assignment followed by lookup. -/
theorem assoc_lookup_update {α : Type} (l : List (String × α)) (k q : String)
    (v : α) :
    assoc_lookup (assoc_update l k v) q =
      if k = q then some v else assoc_lookup l q := by
  induction l with
  | nil => simp [assoc_update, assoc_lookup]
  | cons hd tl ih =>
    obtain ⟨a, b⟩ := hd
    by_cases hak : a = k
    · subst hak
      by_cases haq : a = q <;> simp [assoc_update, assoc_lookup, haq]
    · by_cases haq : a = q
      · subst haq
        have hka : ¬ k = a := fun h => hak h.symm
        simp [assoc_update, assoc_lookup, hak, hka]
      · simp [assoc_update, assoc_lookup, hak, haq, ih]

/-- The keys of the grouped dict after one `add_prediction` step. -/
theorem add_prediction_fst (d : List (String × List (String × String)))
    (c sid v : String) :
    (add_prediction d c sid v).map Prod.fst =
      if c ∈ d.map Prod.fst then d.map Prod.fst else d.map Prod.fst ++ [c] := by
  induction d with
  | nil => simp [add_prediction]
  | cons hd tl ih =>
    obtain ⟨a, inner⟩ := hd
    by_cases hac : a = c
    · subst hac
      simp [add_prediction]
    · have hca : ¬ c = a := fun h => hac h.symm
      simp only [add_prediction, beq_iff_eq, hac, if_false, List.map_cons]
      rw [ih]
      by_cases hc : c ∈ tl.map Prod.fst <;> simp [hc, hca]

/-- Key membership after one `add_prediction` step. -/
theorem mem_add_prediction_fst (d : List (String × List (String × String)))
    (c sid v x : String) :
    x ∈ (add_prediction d c sid v).map Prod.fst ↔
      x ∈ d.map Prod.fst ∨ x = c := by
  rw [add_prediction_fst]
  split
  · rename_i hc
    constructor
    · exact Or.inl
    · rintro (hx | rfl)
      · exact hx
      · exact hc
  · simp

/-- Applying `add_prediction` keeps the outer keys duplicate-free. -/
theorem nodup_add_prediction (d : List (String × List (String × String)))
    (c sid v : String) (h : (d.map Prod.fst).Nodup) :
    ((add_prediction d c sid v).map Prod.fst).Nodup := by
  rw [add_prediction_fst]
  split
  · exact h
  · rename_i hc
    simp [List.nodup_append, h, hc]

/-- The grouped value after one `add_prediction` step. -/
theorem lookup2_add_prediction (d : List (String × List (String × String)))
    (c sid v cell s : String) :
    lookup2 (add_prediction d c sid v) cell s =
      if cell = c ∧ s = sid then some v else lookup2 d cell s := by
  induction d with
  | nil =>
    by_cases hcc : cell = c
    · subst hcc
      by_cases hss : s = sid
      · subst hss
        simp [add_prediction, lookup2, assoc_lookup]
      · have hss' : ¬ sid = s := fun h => hss h.symm
        simp [add_prediction, lookup2, assoc_lookup, hss, hss']
    · have hc : ¬ c = cell := fun h => hcc h.symm
      simp [add_prediction, lookup2, assoc_lookup, hcc, hc]
  | cons hd tl ih =>
    obtain ⟨a, inner⟩ := hd
    by_cases hac : a = c
    · by_cases hcell : a = cell
      · have h1 : cell = c := by rw [← hcell, hac]
        by_cases hss : s = sid
        · subst hss
          simp [add_prediction, lookup2, assoc_lookup, hac, hcell,
            assoc_lookup_update, h1]
        · have hss' : ¬ sid = s := fun h => hss h.symm
          simp [add_prediction, lookup2, assoc_lookup, hac, hcell,
            assoc_lookup_update, h1, hss, hss']
      · have h2 : ¬ cell = c := by
          rw [← hac]
          exact fun h => hcell h.symm
        have h3 : ¬ c = cell := fun h => h2 h.symm
        simp [add_prediction, lookup2, assoc_lookup, hac, hcell, h2, h3]
    · by_cases hcell : a = cell
      · have h2 : ¬ cell = c := by
          rw [← hcell]
          exact hac
        simp [add_prediction, lookup2, assoc_lookup, hac, hcell, h2]
      · simp only [add_prediction, beq_iff_eq, hac, if_false]
        simp only [lookup2, assoc_lookup, beq_iff_eq, hcell, if_false]
        simpa [lookup2] using ih

/-- The grouped value of column `s` after folding the rows of one scenario
file in: if the column belongs to this scenario and the file mentions the hex index, the
last such row wins; otherwise the dict is unchanged at that cell. -/
theorem lookup2_foldl_rows (sid : String) (rows : List Row)
    (d : List (String × List (String × String))) (cell s : String) :
    lookup2 (rows.foldl
        (fun d row => add_prediction d row.h3_index sid row.prediction) d)
      cell s =
      (if s = sid then
        ((rows.filter (fun r => r.h3_index == cell)).getLast?).map Row.prediction
       else none).or (lookup2 d cell s) := by
  induction rows using List.reverseRecOn with
  | nil => by_cases hss : s = sid <;> simp [hss]
  | append_singleton rs r ih =>
    rw [List.foldl_append]
    simp only [List.foldl_cons, List.foldl_nil]
    rw [lookup2_add_prediction, List.filter_append]
    by_cases hr : r.h3_index == cell
    · have hrc : r.h3_index = cell := by simpa using hr
      simp only [List.filter_cons, hr, List.filter_nil, if_true]
      rw [List.getLast?_append]
      by_cases hss : s = sid
      · subst hss
        simp [hrc, ih]
      · simp [hss, hrc, ih, fun h => hss h]
    · have hrc : ¬ cell = r.h3_index := by
        intro h
        exact hr (by simp [h])
      have hfil : List.filter (fun r => r.h3_index == cell) [r] = [] := by
        simp [hr]
      rw [hfil, List.append_nil, ih]
      simp [hrc]

/-- Key membership after folding the rows of one scenario file in. -/
theorem mem_foldl_rows_fst (sid : String) (rows : List Row)
    (d : List (String × List (String × String))) (x : String) :
    x ∈ ((rows.foldl
        (fun d row => add_prediction d row.h3_index sid row.prediction) d).map
          Prod.fst) ↔
      x ∈ d.map Prod.fst ∨ x ∈ rows.map Row.h3_index := by
  induction rows generalizing d with
  | nil => simp
  | cons r rs ih =>
    simp only [List.foldl_cons]
    rw [ih, mem_add_prediction_fst]
    simp only [List.map_cons, List.mem_cons]
    tauto

/-- Folding a scenario file in keeps the outer keys duplicate-free. -/
theorem nodup_foldl_rows (sid : String) (rows : List Row)
    (d : List (String × List (String × String)))
    (h : (d.map Prod.fst).Nodup) :
    (((rows.foldl
        (fun d row => add_prediction d row.h3_index sid row.prediction) d).map
          Prod.fst)).Nodup := by
  induction rows generalizing d with
  | nil => exact h
  | cons r rs ih =>
    simp only [List.foldl_cons]
    exact ih _ (nodup_add_prediction _ _ _ _ h)

/-- Folding in scenario files none of which is scenario `s` leaves every
value in column `s` unchanged. -/
theorem lookup2_foldl_contents_other (contents : List (String × List Row))
    (d : List (String × List (String × String))) (cell s : String)
    (h : ∀ sc ∈ contents, sc.1 ≠ s) :
    lookup2 (contents.foldl
        (fun d sc => sc.2.foldl
          (fun d row => add_prediction d row.h3_index sc.1 row.prediction) d)
        d) cell s =
      lookup2 d cell s := by
  induction contents generalizing d with
  | nil => rfl
  | cons sc rest ih =>
    simp only [List.foldl_cons]
    rw [ih _ (fun sc hsc => h sc (by simp [hsc])), lookup2_foldl_rows]
    have hne : s ≠ sc.1 := fun hs => h sc (by simp) hs.symm
    simp [hne]

/-- The merged value for hex index `cell` in scenario column `s` is the
prediction of the last row carrying that hex index in the file of scenario `s`
(or none if that file never mentions it), provided no other file in the
listing belongs to scenario `s`. -/
theorem lookup2_build (pre post : List (String × List Row)) (s : String)
    (rows : List Row) (cell : String)
    (hpre : ∀ sc ∈ pre, sc.1 ≠ s) (hpost : ∀ sc ∈ post, sc.1 ≠ s) :
    lookup2 (build_predictions_by_cell_code (pre ++ (s, rows) :: post)) cell s =
      ((rows.filter (fun r => r.h3_index == cell)).getLast?).map
        Row.prediction := by
  unfold build_predictions_by_cell_code
  rw [List.foldl_append]
  simp only [List.foldl_cons]
  rw [lookup2_foldl_contents_other _ _ _ _ hpost, lookup2_foldl_rows]
  rw [lookup2_foldl_contents_other _ _ _ _ hpre]
  simp [lookup2, assoc_lookup]

/-- Key membership for the whole grouped dict. -/
theorem mem_build_fst (contents : List (String × List Row)) (x : String) :
    x ∈ (build_predictions_by_cell_code contents).map Prod.fst ↔
      ∃ sc ∈ contents, x ∈ sc.2.map Row.h3_index := by
  have main : ∀ (cs : List (String × List Row))
      (d : List (String × List (String × String))),
      x ∈ ((cs.foldl
          (fun d sc => sc.2.foldl
            (fun d row => add_prediction d row.h3_index sc.1 row.prediction) d)
          d).map Prod.fst) ↔
        x ∈ d.map Prod.fst ∨ ∃ sc ∈ cs, x ∈ sc.2.map Row.h3_index := by
    intro cs
    induction cs with
    | nil => simp
    | cons sc rest ih =>
      intro d
      simp only [List.foldl_cons]
      rw [ih, mem_foldl_rows_fst]
      simp [or_assoc]
  unfold build_predictions_by_cell_code
  rw [main]
  simp

/-- The outer keys of the grouped dict are duplicate-free. -/
theorem nodup_build_fst (contents : List (String × List Row)) :
    ((build_predictions_by_cell_code contents).map Prod.fst).Nodup := by
  have main : ∀ (cs : List (String × List Row))
      (d : List (String × List (String × String))),
      (d.map Prod.fst).Nodup →
      ((cs.foldl
          (fun d sc => sc.2.foldl
            (fun d row => add_prediction d row.h3_index sc.1 row.prediction) d)
          d).map Prod.fst).Nodup := by
    intro cs
    induction cs with
    | nil => exact fun d h => h
    | cons sc rest ih =>
      intro d hd
      simp only [List.foldl_cons]
      exact ih _ (nodup_foldl_rows _ _ _ hd)
  exact main contents [] (by simp)

/-- Unfolding `Except` bind on a success value. -/
theorem except_bind_ok {ε α β : Type} (a : α) (f : α → Except ε β) :
    (Except.ok a >>= f) = f a := rfl

/-- Unfolding `Except` bind on an error value. -/
theorem except_bind_error {ε α β : Type} (e : ε) (f : α → Except ε β) :
    ((Except.error e : Except ε α) >>= f) = .error e := rfl

/-- Unfolding `Except` pure. -/
theorem except_pure_eq {ε α : Type} (a : α) :
    (pure a : Except ε α) = .ok a := rfl

/-- A successful writer pass emits exactly one row per dict key, in dict
order. -/
theorem write_rows_fst (ids : List String)
    (d : List (String × List (String × String)))
    (rs : List (String × List String)) (h : write_rows ids d = .ok rs) :
    rs.map Prod.fst = d.map Prod.fst := by
  induction d generalizing rs with
  | nil =>
    simp only [write_rows] at h
    cases h
    rfl
  | cons hd tl ih =>
    obtain ⟨cell, preds⟩ := hd
    simp only [write_rows] at h
    split at h
    · cases htl : write_rows ids tl with
      | error e => rw [htl] at h; cases h
      | ok tail =>
        rw [htl] at h
        simp only [except_bind_ok, except_pure_eq, Except.ok.injEq] at h
        subst h
        simp [ih tail htl]
    · cases h

/-- A successful writer pass turns the dict entry of each hex index into its
output row, with the scenario columns laid out in `fieldnames` order. -/
theorem write_rows_lookup (ids : List String)
    (d : List (String × List (String × String)))
    (rs : List (String × List String)) (h : write_rows ids d = .ok rs)
    (cell : String) (inner : List (String × String))
    (hl : assoc_lookup d cell = some inner) :
    assoc_lookup rs cell =
      some (ids.map (fun s => (assoc_lookup inner s).getD "")) := by
  induction d generalizing rs with
  | nil => simp [assoc_lookup] at hl
  | cons hd tl ih =>
    obtain ⟨c, preds⟩ := hd
    simp only [write_rows] at h
    split at h
    · cases htl : write_rows ids tl with
      | error e => rw [htl] at h; cases h
      | ok tail =>
        rw [htl] at h
        simp only [except_bind_ok, except_pure_eq, Except.ok.injEq] at h
        subst h
        by_cases hc : c = cell
        · subst hc
          simp only [assoc_lookup, beq_self_eq_true, if_true,
            Option.some.injEq] at hl ⊢
          rw [hl]
        · simp only [assoc_lookup, beq_iff_eq, hc, if_false] at hl ⊢
          exact ih tail htl hl
    · cases h

/-- A successful read fan-out returns one entry per scenario id, in scenario
order, holding the file contents of that scenario. -/
theorem read_scenario_contents_ok (bucket : String → Option (List Row))
    (b p m a cid : String) (ids : List String)
    (contents : List (String × List Row))
    (h : read_scenario_contents bucket b p m a cid ids = .ok contents) :
    contents = ids.map
      (fun s => (s, (bucket (chunk_object_name b p m a s cid)).getD [])) := by
  induction ids generalizing contents with
  | nil =>
    simp only [read_scenario_contents, Except.ok.injEq] at h
    subst h
    rfl
  | cons s rest ih =>
    simp only [read_scenario_contents] at h
    unfold get_file_content at h
    cases hb : bucket (chunk_object_name b p m a s cid) with
    | none =>
      rw [hb] at h
      simp only [except_bind_error] at h
      cases h
    | some rows =>
      rw [hb] at h
      simp only [except_bind_ok] at h
      cases hrest : read_scenario_contents bucket b p m a cid rest with
      | error e =>
        rw [hrest] at h
        simp only [except_bind_error] at h
        cases h
      | ok others =>
        rw [hrest] at h
        simp only [except_bind_ok, except_pure_eq, Except.ok.injEq] at h
        subst h
        simp [ih _ hrest, hb]

/-- Looking up a column in a row zipped against its header. -/
theorem assoc_lookup_zip_map (ids : List String) (f : String → String)
    (s : String) (hs : s ∈ ids) :
    assoc_lookup (ids.zip (ids.map f)) s = some (f s) := by
  induction ids with
  | nil => cases hs
  | cons a rest ih =>
    simp only [List.map_cons, List.zip_cons_cons, assoc_lookup]
    by_cases has : a = s
    · subst has
      simp
    · rcases List.mem_cons.mp hs with rfl | hs'
      · exact absurd rfl has
      · simp only [beq_iff_eq, has, if_false]
        exact ih hs'

/-- Inversion of a successful `_merge_single_chunk` run. -/
theorem merge_single_chunk_ok (bucket : String → Option (List Row))
    (b p m a : String) (ids : List String) (cid : String) (out : OutputCsv)
    (h : merge_single_chunk bucket b p m a ids cid = .ok out) :
    ∃ contents rs,
      read_scenario_contents bucket b p m a cid ids = .ok contents ∧
      write_rows ids (build_predictions_by_cell_code contents) = .ok rs ∧
      out = ⟨"cell_code" :: ids, rs⟩ := by
  unfold merge_single_chunk at h
  cases hread : read_scenario_contents bucket b p m a cid ids with
  | error e =>
    rw [hread] at h
    simp only [except_bind_error] at h
    cases h
  | ok contents =>
    rw [hread] at h
    simp only [except_bind_ok] at h
    cases hw : write_rows ids (build_predictions_by_cell_code contents) with
    | error e =>
      rw [hw] at h
      simp only [except_bind_error] at h
      cases h
    | ok rs =>
      rw [hw] at h
      simp only [except_bind_ok, except_pure_eq, Except.ok.injEq] at h
      exact ⟨contents, rs, rfl, hw, h.symm⟩

/-- C4 (counterexample): the header of a merged per-chunk output file starts
with the literal column name `cell_code`, not `h3_index` as the claim
states. -/
theorem c4_merge_header_counterexample :
    (merge_single_chunk c4_bucket "batch" "flood" "model" "nyc" ["s0", "s1"]
        "chunk0").map OutputCsv.header =
      .ok ["cell_code", "s0", "s1"] ∧
    ("cell_code" : String) ≠ "h3_index" := by
  decide

/-- C4 (amended): every merged per-chunk output file has header row
`cell_code` (not `h3_index`) followed by exactly one column per scenario id
in the order supplied by the manifest, and exactly one data row per hex
index occurring in the input files. -/
theorem c4_merge_output_amended (bucket : String → Option (List Row))
    (b p m a : String) (ids : List String) (cid : String) (out : OutputCsv)
    (h : merge_single_chunk bucket b p m a ids cid = .ok out) :
    out.header = "cell_code" :: ids ∧
    (out.rows.map Prod.fst).Nodup ∧
    ∀ cell : String, cell ∈ out.rows.map Prod.fst ↔
      ∃ s ∈ ids, ∃ rows, bucket (chunk_object_name b p m a s cid) = some rows ∧
        cell ∈ rows.map Row.h3_index := by
  obtain ⟨contents, rs, hread, hw, hout⟩ :=
    merge_single_chunk_ok bucket b p m a ids cid out h
  subst hout
  have hfst := write_rows_fst _ _ _ hw
  refine ⟨rfl, ?_, ?_⟩
  · show (rs.map Prod.fst).Nodup
    rw [hfst]
    exact nodup_build_fst contents
  · intro cell
    show cell ∈ rs.map Prod.fst ↔ _
    rw [hfst, mem_build_fst]
    have hc := read_scenario_contents_ok bucket b p m a cid ids contents hread
    subst hc
    constructor
    · rintro ⟨sc, hsc, hcell⟩
      rw [List.mem_map] at hsc
      obtain ⟨s, hs, rfl⟩ := hsc
      cases hb : bucket (chunk_object_name b p m a s cid) with
      | none =>
        rw [hb] at hcell
        simp at hcell
      | some rows =>
        refine ⟨s, hs, rows, hb, ?_⟩
        rw [hb] at hcell
        simpa using hcell
    · rintro ⟨s, hs, rows, hb, hcell⟩
      refine ⟨(s, (bucket (chunk_object_name b p m a s cid)).getD []), ?_, ?_⟩
      · exact List.mem_map.mpr ⟨s, hs, rfl⟩
      · rw [hb]
        simpa using hcell

/-- Witness for C4 (amended): a concrete merged output with header
`cell_code,s0,s1` and one row per hex index. -/
theorem c4_merge_output_amended_witness :
    merge_single_chunk c4_bucket "batch" "flood" "model" "nyc" ["s0", "s1"]
        "chunk0" =
      .ok ⟨["cell_code", "s0", "s1"],
           [("h300", ["0.00", "1.00"]), ("h301", ["0.01", "1.01"])]⟩ ∧
    (OutputCsv.header ⟨["cell_code", "s0", "s1"],
        [("h300", ["0.00", "1.00"]), ("h301", ["0.01", "1.01"])]⟩ =
      "cell_code" :: ["s0", "s1"] ∧
     ((OutputCsv.rows ⟨["cell_code", "s0", "s1"],
         [("h300", ["0.00", "1.00"]), ("h301", ["0.01", "1.01"])]⟩).map
           Prod.fst).Nodup ∧
     ∀ cell : String,
       cell ∈ (OutputCsv.rows ⟨["cell_code", "s0", "s1"],
           [("h300", ["0.00", "1.00"]), ("h301", ["0.01", "1.01"])]⟩).map
             Prod.fst ↔
         ∃ s ∈ ["s0", "s1"], ∃ rows,
           c4_bucket (chunk_object_name "batch" "flood" "model" "nyc" s
             "chunk0") = some rows ∧ cell ∈ rows.map Row.h3_index) :=
  ⟨by decide,
   c4_merge_output_amended c4_bucket "batch" "flood" "model" "nyc"
     ["s0", "s1"] "chunk0" _ (by decide)⟩

/-- C10: when the input CSV of a scenario contains two or more rows with the same
hex index, the merged output value for that hex index and scenario column is
the prediction of the last such row in file order (the earlier rows are
silently overwritten, and the duplicate rows themselves raise no error). -/
theorem c10_duplicate_rows_last_wins (bucket : String → Option (List Row))
    (b p m a : String) (ids : List String) (cid : String) (out : OutputCsv)
    (hnd : ids.Nodup)
    (h : merge_single_chunk bucket b p m a ids cid = .ok out)
    (s : String) (hs : s ∈ ids) (rows : List Row)
    (hfile : bucket (chunk_object_name b p m a s cid) = some rows)
    (cell : String)
    (hdup : 1 < (rows.filter (fun r => r.h3_index == cell)).length) :
    output_cell out ids cell s =
      ((rows.filter (fun r => r.h3_index == cell)).getLast?).map
        Row.prediction ∧
    (output_cell out ids cell s).isSome = true := by
  obtain ⟨contents, rs, hread, hw, hout⟩ :=
    merge_single_chunk_ok bucket b p m a ids cid out h
  subst hout
  have hc := read_scenario_contents_ok bucket b p m a cid ids contents hread
  subst hc
  -- Split the scenario list around `s`.
  obtain ⟨pre, post, hids⟩ := List.append_of_mem hs
  subst hids
  have hspre : s ∉ pre := by
    rcases List.nodup_append.mp hnd with ⟨-, -, hdisj⟩
    intro hsp
    exact hdisj hsp (by simp)
  have hspost : s ∉ post := by
    rcases List.nodup_append.mp hnd with ⟨-, hn, -⟩
    exact (List.nodup_cons.mp hn).1
  -- The contents decompose around the file of scenario s.
  have hcontents :
      (pre ++ s :: post).map
        (fun sc => (sc, (bucket (chunk_object_name b p m a sc cid)).getD [])) =
      pre.map
        (fun sc => (sc, (bucket (chunk_object_name b p m a sc cid)).getD [])) ++
      (s, rows) :: post.map
        (fun sc => (sc, (bucket (chunk_object_name b p m a sc cid)).getD [])) := by
    simp [hfile]
  -- The grouped value in column `s` is the last duplicate.
  have hlook : lookup2 (build_predictions_by_cell_code
      ((pre ++ s :: post).map
        (fun sc => (sc, (bucket (chunk_object_name b p m a sc cid)).getD [])))) cell s =
      ((rows.filter (fun r => r.h3_index == cell)).getLast?).map
        Row.prediction := by
    rw [hcontents]
    apply lookup2_build
    · intro sc hsc
      rw [List.mem_map] at hsc
      obtain ⟨x, hx, rfl⟩ := hsc
      exact fun hxs => hspre (hxs ▸ hx)
    · intro sc hsc
      rw [List.mem_map] at hsc
      obtain ⟨x, hx, rfl⟩ := hsc
      exact fun hxs => hspost (hxs ▸ hx)
  -- The filtered duplicate list is nonempty, so the cell is present.
  obtain ⟨r0, hr0⟩ : ∃ r0,
      (rows.filter (fun r => r.h3_index == cell)).getLast? = some r0 := by
    rw [← Option.isSome_iff_exists, List.getLast?_isSome]
    intro hnil
    rw [hnil] at hdup
    simp at hdup
  have hcellmem : cell ∈ (build_predictions_by_cell_code
      ((pre ++ s :: post).map
        (fun sc => (sc, (bucket (chunk_object_name b p m a sc cid)).getD [])))).map
          Prod.fst := by
    rw [mem_build_fst]
    refine ⟨(s, rows), by rw [hcontents]; simp, ?_⟩
    obtain ⟨hne, hx⟩ := List.mem_getLast?_eq_getLast
      (show r0 ∈ (rows.filter (fun r => r.h3_index == cell)).getLast? from
        Option.mem_def.mpr hr0)
    have hr0mem : r0 ∈ rows.filter (fun r => r.h3_index == cell) := by
      rw [hx]
      exact List.getLast_mem hne
    rw [List.mem_filter] at hr0mem
    exact List.mem_map.mpr ⟨r0, hr0mem.1, by simpa using hr0mem.2⟩
  obtain ⟨inner, hinner⟩ :=
    Option.isSome_iff_exists.mp ((assoc_lookup_isSome _ _).mpr hcellmem)
  have hrs := write_rows_lookup _ _ _ hw cell inner hinner
  have hinner_s : assoc_lookup inner s =
      ((rows.filter (fun r => r.h3_index == cell)).getLast?).map
        Row.prediction := by
    rw [← hlook]
    unfold lookup2
    rw [hinner]
    rfl
  have hout_cell : output_cell
      ⟨"cell_code" :: (pre ++ s :: post), rs⟩ (pre ++ s :: post) cell s =
      some r0.prediction := by
    unfold output_cell
    show (assoc_lookup rs cell).bind _ = _
    rw [hrs]
    simp only [Option.some_bind]
    rw [assoc_lookup_zip_map _ _ _ hs]
    rw [hinner_s, hr0]
    rfl
  constructor
  · rw [hout_cell, hr0]
    rfl
  · rw [hout_cell]
    rfl

/-- Witness for C10: a concrete merge in which the file of scenario `s0` carries
the hex index `h3dup` twice (values `0.10` then `0.25`); the merge succeeds
and the output column for `s0` holds `0.25`, the last value in file order. -/
theorem c10_duplicate_rows_last_wins_witness :
    (["s0", "s1"] : List String).Nodup ∧
    merge_single_chunk c10_bucket "batch" "flood" "model" "nyc" ["s0", "s1"]
        "chunk0" =
      .ok ⟨["cell_code", "s0", "s1"], [("h3dup", ["0.25", "1.00"])]⟩ ∧
    "s0" ∈ (["s0", "s1"] : List String) ∧
    c10_bucket (chunk_object_name "batch" "flood" "model" "nyc" "s0" "chunk0") =
      some [⟨"h3dup", "0.10"⟩, ⟨"h3dup", "0.25"⟩] ∧
    1 < (([⟨"h3dup", "0.10"⟩, ⟨"h3dup", "0.25"⟩] : List Row).filter
          (fun r => r.h3_index == "h3dup")).length ∧
    output_cell ⟨["cell_code", "s0", "s1"], [("h3dup", ["0.25", "1.00"])]⟩
        ["s0", "s1"] "h3dup" "s0" =
      ((([⟨"h3dup", "0.10"⟩, ⟨"h3dup", "0.25"⟩] : List Row).filter
          (fun r => r.h3_index == "h3dup")).getLast?).map Row.prediction ∧
    (output_cell ⟨["cell_code", "s0", "s1"], [("h3dup", ["0.25", "1.00"])]⟩
        ["s0", "s1"] "h3dup" "s0").isSome = true :=
  ⟨by decide, by decide, by decide, by decide, by decide,
   (c10_duplicate_rows_last_wins c10_bucket "batch" "flood" "model" "nyc"
     ["s0", "s1"] "chunk0"
     ⟨["cell_code", "s0", "s1"], [("h3dup", ["0.25", "1.00"])]⟩
     (by decide) (by decide) "s0" (by decide)
     [⟨"h3dup", "0.10"⟩, ⟨"h3dup", "0.25"⟩] (by decide) "h3dup"
     (by decide)).1,
   (c10_duplicate_rows_last_wins c10_bucket "batch" "flood" "model" "nyc"
     ["s0", "s1"] "chunk0"
     ⟨["cell_code", "s0", "s1"], [("h3dup", ["0.25", "1.00"])]⟩
     (by decide) (by decide) "s0" (by decide)
     [⟨"h3dup", "0.10"⟩, ⟨"h3dup", "0.25"⟩] (by decide) "h3dup"
     (by decide)).2⟩

/-- Evaluating `isOk` on an error. -/
theorem except_isOk_error {ε α : Type} (e : ε) :
    (Except.error e : Except ε α).isOk = false := rfl

/-- Evaluating `isOk` on a success. -/
theorem except_isOk_ok {ε α : Type} (a : α) :
    (Except.ok a : Except ε α).isOk = true := rfl

/-- The function `isOk` commutes with `Except.map`. -/
theorem except_map_isOk {ε α β : Type} (f : α → β) (x : Except ε α) :
    (x.map f).isOk = x.isOk := by
  cases x <;> rfl

/-- Metadata extraction succeeds exactly when `_chunk_metadata_fields_valid`
accepts the document. -/
theorem validate_isSome (d : ChunkDoc) :
    d.validate.isSome = chunk_metadata_fields_valid d := by
  obtain ⟨f1, f2, f3, f4, f5, f6⟩ := d
  unfold ChunkDoc.validate chunk_metadata_fields_valid
  cases f1 <;> cases f2 <;> cases f3 <;> cases f4 <;> cases f5 <;> cases f6 <;>
    simp

/-- Indexing into the flattening of a list of lists of uniform length `n`. -/
theorem flatten_getElem_uniform {α : Type} (L : List (List α)) (n : Nat)
    (h : ∀ l ∈ L, l.length = n) (i j : Nat) (hj : j < n) :
    L.flatten[i * n + j]? = L[i]?.bind (fun l => l[j]?) := by
  induction L generalizing i with
  | nil => simp
  | cons a t ih =>
    have ha : a.length = n := h a (by simp)
    cases i with
    | zero =>
      rw [List.flatten_cons]
      simp only [Nat.zero_mul, Nat.zero_add]
      rw [List.getElem?_append, ha]
      simp [hj]
    | succ i =>
      rw [List.flatten_cons]
      rw [List.getElem?_append_right (by rw [ha]; nlinarith)]
      have harith : (i + 1) * n + j - a.length = i * n + j := by
        rw [ha]
        ring_nf
        omega
      rw [harith, ih (fun l hl => h l (by simp [hl])) i]
      simp

/-- The length of a flat map whose pieces all have length `n`. -/
theorem length_flatMap_const {α β : Type} (l : List α) (f : α → List β)
    (n : Nat) (h : ∀ a ∈ l, (f a).length = n) :
    (l.flatMap f).length = l.length * n := by
  induction l with
  | nil => simp
  | cons a t ih =>
    rw [List.flatMap_cons, List.length_append, h a (by simp),
      ih (fun x hx => h x (by simp [hx])), List.length_cons]
    ring

/-- The number of generated cell centers is `row_count * col_count`. -/
theorem cell_centers_length (sa : StudyArea) (ck : Chunk) :
    (cell_centers sa ck).length = ck.row_count * ck.col_count := by
  unfold cell_centers
  rw [length_flatMap_const _ _ ck.col_count
    (by intro a ha; rw [List.length_map, List.length_range]), List.length_range]

/-- C5 (counterexample): a raster whose actual shape (3×2) disagrees with
the chunk metadata (2 rows × 3 columns) but has the same total number of
elements is spatialized without any error, refuting the claim that the grid
projector fails with a validation error whenever `row_count`/`col_count` do
not match the actual shape of the raster. -/
theorem c5_shape_validation_counterexample :
    (build_spatialized_model_predictions c5_study_area c5_chunk id
        c5_predictions).isOk = true ∧
    c5_predictions.length = 3 ∧ c5_chunk.row_count = 2 ∧
    (c5_predictions.map List.length) = [2, 2, 2] ∧ c5_chunk.col_count = 3 := by
  refine ⟨?_, by decide, by decide, ?_, by decide⟩
  · decide
  · decide

/-- C5 (amended): the grid projector raises a validation error exactly when
the *total element count* of the (flattened) raster differs from
`row_count * col_count`; a shape mismatch that preserves the total element
count (e.g. a transposed raster) silently produces spatialized points. -/
theorem c5_shape_validation_amended (sa : StudyArea) (ck : Chunk)
    (to_global : ℚ × ℚ → ℚ × ℚ) (predictions : List (List ℚ)) :
    (build_spatialized_model_predictions sa ck to_global predictions).isOk =
      (ck.row_count * ck.col_count == (predictions.map List.length).sum) := by
  have ha : predictions.reverse.flatten.length =
      (predictions.map List.length).sum := by
    rw [List.length_flatten, List.map_reverse, List.sum_reverse]
  by_cases hcond :
      (cell_centers sa ck).length = predictions.reverse.flatten.length
  · simp only [build_spatialized_model_predictions, hcond, if_true,
      except_isOk_ok]
    rw [cell_centers_length, ha] at hcond
    exact (beq_iff_eq.mpr hcond).symm
  · simp only [build_spatialized_model_predictions, hcond, if_false,
      except_isOk_error]
    rw [cell_centers_length, ha] at hcond
    exact (beq_eq_false_iff_ne.mpr hcond).symm

/-- C6: for a raster matching the chunk metadata (`row_count` rows of
`col_count` columns each), the grid projector succeeds and returns exactly
`row_count * col_count` points in which the point at position
`row * col_count + col` has its pre-reprojection center at
`(x_ll_corner + (col+0.5)*cell_size, y_ll_corner + (row+0.5)*cell_size)` —
reprojected by `to_global`, with `lat` its second and `lon` its first
coordinate — and carries the vertically flipped raster value at
`(row, col)`, i.e. the original raster value at `(row_count-1-row, col)`, so
output row 0 corresponds to the lowest y coordinate. -/
theorem c6_grid_projector_contract (sa : StudyArea) (ck : Chunk)
    (to_global : ℚ × ℚ → ℚ × ℚ) (predictions : List (List ℚ))
    (hr : predictions.length = ck.row_count)
    (hc : ∀ r ∈ predictions, r.length = ck.col_count) :
    ∃ pts, build_spatialized_model_predictions sa ck to_global predictions =
        .ok pts ∧
      pts.length = ck.row_count * ck.col_count ∧
      ∀ row col : Nat, row < ck.row_count → col < ck.col_count →
        ∃ flipped_row,
          predictions[ck.row_count - 1 - row]? = some flipped_row ∧
          ∃ v, flipped_row[col]? = some v ∧
            pts[row * ck.col_count + col]? = some
              { lat := (to_global
                  (ck.x_ll_corner + ((col : ℚ) + 1/2) * sa.cell_size,
                   ck.y_ll_corner + ((row : ℚ) + 1/2) * sa.cell_size)).2,
                lon := (to_global
                  (ck.x_ll_corner + ((col : ℚ) + 1/2) * sa.cell_size,
                   ck.y_ll_corner + ((row : ℚ) + 1/2) * sa.cell_size)).1,
                prediction := v } := by
  have hrev : ∀ l ∈ predictions.reverse, l.length = ck.col_count :=
    fun l hl => hc l (List.mem_reverse.mp hl)
  have halign : predictions.reverse.flatten.length =
      ck.row_count * ck.col_count := by
    rw [List.length_flatten, List.map_reverse, List.sum_reverse]
    have hrepl : predictions.map List.length =
        List.replicate (predictions.map List.length).length ck.col_count := by
      apply List.eq_replicate_of_mem
      intro x hx
      rw [List.mem_map] at hx
      obtain ⟨r, hrr, rfl⟩ := hx
      exact hc r hrr
    rw [hrepl, List.sum_replicate, List.length_map, hr, smul_eq_mul]
  have hcond : (cell_centers sa ck).length =
      predictions.reverse.flatten.length := by
    rw [cell_centers_length, halign]
  refine ⟨List.zipWith
      (fun xy v => { lat := (to_global xy).2, lon := (to_global xy).1,
                     prediction := v })
      (cell_centers sa ck) predictions.reverse.flatten, ?_, ?_, ?_⟩
  · simp only [build_spatialized_model_predictions, hcond, if_true]
  · rw [List.length_zipWith, cell_centers_length, halign]
    exact Nat.min_self _
  · intro row col hrow hcol
    have hrows_pos : 0 < ck.row_count := Nat.lt_of_le_of_lt (Nat.zero_le _) hrow
    have hidx : ck.row_count - 1 - row < predictions.length := by omega
    have hflen : predictions[ck.row_count - 1 - row].length = ck.col_count :=
      hc _ (List.getElem_mem hidx)
    have hcidx : col < predictions[ck.row_count - 1 - row].length := by
      rw [hflen]
      exact hcol
    refine ⟨predictions[ck.row_count - 1 - row],
      List.getElem?_eq_getElem hidx,
      predictions[ck.row_count - 1 - row][col],
      List.getElem?_eq_getElem hcidx, ?_⟩
    -- Index into the zipped list componentwise.
    have hcoord : (cell_centers sa ck)[row * ck.col_count + col]? =
        some (ck.x_ll_corner + ((col : ℚ) + 1/2) * sa.cell_size,
              ck.y_ll_corner + ((row : ℚ) + 1/2) * sa.cell_size) := by
      unfold cell_centers
      rw [List.flatMap_def,
        flatten_getElem_uniform _ ck.col_count
          (by
            intro l hl
            rw [List.mem_map] at hl
            obtain ⟨i, hi, rfl⟩ := hl
            rw [List.length_map, List.length_range])
          row col hcol,
        List.getElem?_map, List.getElem?_range hrow]
      simp only [Option.map_some', Option.some_bind]
      rw [List.getElem?_map, List.getElem?_range hcol]
      rfl
    have hval : predictions.reverse.flatten[row * ck.col_count + col]? =
        some predictions[ck.row_count - 1 - row][col] := by
      rw [flatten_getElem_uniform _ ck.col_count hrev row col hcol]
      rw [List.getElem?_reverse (by omega)]
      have hlen1 : predictions.length - 1 - row = ck.row_count - 1 - row := by
        omega
      rw [hlen1, List.getElem?_eq_getElem hidx]
      simp only [Option.some_bind]
      rw [List.getElem?_eq_getElem hcidx]
    rw [List.getElem?_zipWith, hcoord, hval]

/-- Witness for C6: the reference fixture of the spec (2×3 raster `[[1,2,3],[4,5,6]]`,
`cell_size=10`, corner `(500,100)`), with the reprojection oracle taken as the
identity. -/
theorem c6_grid_projector_contract_witness :
    (c6_predictions.length = c6_chunk.row_count ∧
     ∀ r ∈ c6_predictions, r.length = c6_chunk.col_count) ∧
    (∃ pts, build_spatialized_model_predictions c6_study_area c6_chunk id
        c6_predictions = .ok pts ∧
      pts.length = c6_chunk.row_count * c6_chunk.col_count ∧
      ∀ row col : Nat, row < c6_chunk.row_count → col < c6_chunk.col_count →
        ∃ flipped_row,
          c6_predictions[c6_chunk.row_count - 1 - row]? = some flipped_row ∧
          ∃ v, flipped_row[col]? = some v ∧
            pts[row * c6_chunk.col_count + col]? = some
              { lat := (id
                  (c6_chunk.x_ll_corner +
                    ((col : ℚ) + 1/2) * c6_study_area.cell_size,
                   c6_chunk.y_ll_corner +
                    ((row : ℚ) + 1/2) * c6_study_area.cell_size)).2,
                lon := (id
                  (c6_chunk.x_ll_corner +
                    ((col : ℚ) + 1/2) * c6_study_area.cell_size,
                   c6_chunk.y_ll_corner +
                    ((row : ℚ) + 1/2) * c6_study_area.cell_size)).1,
                prediction := v }) :=
  ⟨⟨by decide, by decide⟩,
   c6_grid_projector_contract c6_study_area c6_chunk id c6_predictions
     (by decide) (by decide)⟩

/-- Membership in the grouped-max result: an entry `(k, v)` is present
exactly when some input point carries hex index `k` and `v` is the maximum
prediction among the points carrying `k`. -/
theorem mem_groupby_max (rows : List SpatPred) (k : String) (v : ℚ) :
    (k, v) ∈ groupby_max rows ↔
      (k ∈ rows.map SpatPred.h3_index ∧
        ((rows.filter (fun r => r.h3_index == k)).map
          SpatPred.prediction).max? = some v) := by
  unfold groupby_max
  rw [List.mem_filterMap]
  constructor
  · rintro ⟨a, ha, hfa⟩
    obtain ⟨w, hw, heq⟩ := Option.map_eq_some'.mp hfa
    obtain ⟨rfl, rfl⟩ : a = k ∧ w = v := Prod.mk.injEq .. ▸ heq
    exact ⟨List.mem_dedup.mp (List.mem_mergeSort.mp ha), hw⟩
  · rintro ⟨hk, hmax⟩
    refine ⟨k, List.mem_mergeSort.mpr (List.mem_dedup.mpr hk), ?_⟩
    rw [hmax]
    rfl

/-- C7: with an empty boundary-cell set, the aggregator returns the grouped
per-hex aggregation of the own retained points of the chunk alone; the result is
the same under every environment (over any geometry type), i.e. no neighbor
lookup, read or geometry operation influences it; and the returned value for
each hex index is exactly the (max-)aggregate of the own points of the chunk
carrying that index. -/
theorem c7_no_boundary_no_neighbor_reads {Poly : Type} (env : AggEnv Poly)
    (sa : StudyArea) (ck : Chunk) (spat : List SpatPred) :
    aggregate_h3_predictions env sa ck [] spat = .ok (groupby_max spat) ∧
    (∀ {Poly' : Type} (env' : AggEnv Poly') (sa' : StudyArea) (ck' : Chunk),
      aggregate_h3_predictions env' sa' ck' [] spat =
        aggregate_h3_predictions env sa ck [] spat) ∧
    ∀ (k : String) (v : ℚ), (k, v) ∈ groupby_max spat ↔
      (k ∈ spat.map SpatPred.h3_index ∧
        ((spat.filter (fun r => r.h3_index == k)).map
          SpatPred.prediction).max? = some v) :=
  ⟨rfl, fun _ _ _ => rfl, fun k v => mem_groupby_max spat k v⟩

/-- If some list element makes the step fail no matter the accumulator, the
whole `foldlM` over `Except` fails. -/
theorem foldlM_isOk_false {ε α β : Type} (step : β → α → Except ε β)
    (ps : List α) (p : α) (hp : p ∈ ps)
    (h : ∀ acc, (step acc p).isOk = false) :
    ∀ acc, (ps.foldlM step acc).isOk = false := by
  induction ps with
  | nil => cases hp
  | cons a t ih =>
    intro acc
    rw [List.foldlM_cons]
    cases hsa : step acc a with
    | error e =>
      rw [except_bind_error, except_isOk_error]
    | ok acc' =>
      rw [except_bind_ok]
      rcases List.mem_cons.mp hp with heq | hpt
      · exfalso
        have hcontr := h acc
        rw [heq, hsa, except_isOk_ok] at hcontr
        exact Bool.noConfusion hcontr
      · exact ih hpt acc'

/-- C8: for each of the 8 adjacent grid positions, the neighbor loop body
(1) silently skips a position outside `[0, chunk_x_count) × [0, chunk_y_count)`
(returning the accumulator unchanged, consulting nothing),
(2) raises the MissingNeighbor-class error when an in-bounds position has no
registered chunk,
(3) raises the InvalidNeighborMetadata-class error when an in-bounds
neighbor has metadata missing one of the six required fields; and
(4) a position whose processing always fails makes the whole chunk
aggregation fail (no partial result is ever produced). -/
theorem c8_neighbor_resolution :
    (∀ {Poly : Type} (env : AggEnv Poly) (sa : StudyArea) (cells : List Poly)
        (acc : List SpatPred) (pos : Int × Int),
      (pos.1 < 0 || pos.2 < 0 || sa.chunk_x_count ≤ pos.1 ||
        sa.chunk_y_count ≤ pos.2) = true →
      process_neighbor env sa cells acc pos = .ok acc) ∧
    (∀ {Poly : Type} (env : AggEnv Poly) (sa : StudyArea) (cells : List Poly)
        (acc : List SpatPred) (pos : Int × Int),
      (pos.1 < 0 || pos.2 < 0 || sa.chunk_x_count ≤ pos.1 ||
        sa.chunk_y_count ≤ pos.2) = false →
      env.lookup_chunk pos.1 pos.2 = none →
      process_neighbor env sa cells acc pos =
        .error (.missing_neighbor pos.1 pos.2)) ∧
    (∀ {Poly : Type} (env : AggEnv Poly) (sa : StudyArea) (cells : List Poly)
        (acc : List SpatPred) (pos : Int × Int) (neighbor_chunk_id : String)
        (doc : ChunkDoc),
      (pos.1 < 0 || pos.2 < 0 || sa.chunk_x_count ≤ pos.1 ||
        sa.chunk_y_count ≤ pos.2) = false →
      env.lookup_chunk pos.1 pos.2 = some (neighbor_chunk_id, doc) →
      chunk_metadata_fields_valid doc = false →
      process_neighbor env sa cells acc pos =
        .error (.invalid_neighbor_metadata pos.1 pos.2)) ∧
    (∀ {Poly : Type} (env : AggEnv Poly) (sa : StudyArea) (ck : Chunk)
        (cells : List Poly) (spat : List SpatPred) (pos : Int × Int),
      cells.length ≠ 0 →
      pos ∈ neighbor_positions ck →
      (∀ acc, (process_neighbor env sa cells acc pos).isOk = false) →
      (aggregate_h3_predictions env sa ck cells spat).isOk = false) := by
  refine ⟨?_, ?_, ?_, ?_⟩
  · intro Poly env sa cells acc pos hcond
    unfold process_neighbor
    rw [hcond]
    rfl
  · intro Poly env sa cells acc pos hcond hlk
    unfold process_neighbor
    rw [hcond, hlk]
    rfl
  · intro Poly env sa cells acc pos nid doc hcond hlk hvalid
    have hnone : doc.validate = none := by
      have := validate_isSome doc
      rw [hvalid] at this
      exact Option.not_isSome_iff_eq_none.mp (by rw [this]; exact Bool.false_ne_true)
    unfold process_neighbor
    rw [hcond, hlk]
    dsimp only
    rw [hnone]
    rfl
  · intro Poly env sa ck cells spat pos hcells hpos hfail
    unfold aggregate_h3_predictions
    rw [if_neg hcells]
    rw [except_map_isOk]
    exact foldlM_isOk_false _ _ pos hpos hfail spat

/-- Witness for C8: in a 2×2 chunk grid with the primary chunk at (0,0),
the out-of-bounds position (-1,0) is skipped, the in-bounds position (0,1)
with no registered chunk raises MissingNeighbor, the in-bounds position
(1,1) with incomplete metadata raises InvalidNeighborMetadata, and the whole
aggregation fails. -/
theorem c8_neighbor_resolution_witness :
    process_neighbor c8_env c8_study_area [()] [] (-1, 0) = .ok [] ∧
    process_neighbor c8_env c8_study_area [()] [] (0, 1) =
      .error (.missing_neighbor 0 1) ∧
    process_neighbor c8_env c8_study_area [()] [] (1, 1) =
      .error (.invalid_neighbor_metadata 1 1) ∧
    (aggregate_h3_predictions c8_env c8_study_area c8_chunk [()] []).isOk =
      false :=
  ⟨c8_neighbor_resolution.1 c8_env c8_study_area [()] [] (-1, 0) (by decide),
   c8_neighbor_resolution.2.1 c8_env c8_study_area [()] [] (0, 1) (by decide)
     rfl,
   c8_neighbor_resolution.2.2.1 c8_env c8_study_area [()] [] (1, 1)
     "chunk_1_1" c8_doc_invalid (by decide) rfl (by decide),
   c8_neighbor_resolution.2.2.2 c8_env c8_study_area c8_chunk [()] [] (0, 1)
     (by decide) (by decide) (fun acc => rfl)⟩

/-- Evaluation helper for the C3 theorems: on the 1×1-grid fixture (all
adjacent positions out of bounds) with two points of values 1 and 3 in the
same hex, the aggregator returns value 3 for that hex. -/
theorem c3_eval :
    aggregate_h3_predictions c3_env c3_study_area c3_chunk [()] c3_points =
      .ok [("h3cell", 3)] := by
  have hfold : (neighbor_positions c3_chunk).foldlM
      (process_neighbor c3_env c3_study_area [()]) c3_points =
      .ok c3_points := rfl
  have hdedup : ((c3_points.map SpatPred.h3_index).dedup) = ["h3cell"] := by
    decide
  have hmax : ((c3_points.filter
      (fun r => r.h3_index == "h3cell")).map SpatPred.prediction).max? =
      some 3 := by
    show some (max (1 : ℚ) 3) = some 3
    rw [max_eq_right (by norm_num : (1 : ℚ) ≤ 3)]
  have hgroup : groupby_max c3_points = [("h3cell", 3)] := by
    unfold groupby_max
    rw [hdedup, List.mergeSort_singleton]
    rw [List.filterMap_cons]
    rw [hmax]
    rfl
  unfold aggregate_h3_predictions
  rw [if_neg (by decide : ¬ ([()] : List Unit).length = 0), hfold]
  show Except.ok (groupby_max c3_points) = _
  rw [hgroup]

/-- C3 (counterexample): the aggregator combines the two contributing raster
cells (values 1 and 3) of a hex with `max`, yielding 3 — not their average
2 — refuting the claim that an aggregation function is selected per
prediction type and that a mean-configured prediction type yields the
average of the contributing cells: the code applies `"max"` uniformly, with
no per-prediction-type selection. -/
theorem c3_aggregation_mean_counterexample :
    aggregate_h3_predictions c3_env c3_study_area c3_chunk [()] c3_points =
      .ok [("h3cell", 3)] ∧
    ¬ ((3 : ℚ) = (1 + 3) / 2) :=
  ⟨c3_eval, by norm_num⟩

/-- A single neighbor-loop step can only append to the accumulated frame. -/
theorem process_neighbor_extends {Poly : Type} (env : AggEnv Poly)
    (sa : StudyArea) (cells : List Poly) (acc : List SpatPred)
    (pos : Int × Int) (acc' : List SpatPred)
    (h : process_neighbor env sa cells acc pos = .ok acc') :
    ∃ rest, acc' = acc ++ rest := by
  unfold process_neighbor at h
  split at h
  · cases h
    exact ⟨[], (List.append_nil _).symm⟩
  · cases hlk : env.lookup_chunk pos.1 pos.2 with
    | none =>
      rw [hlk] at h
      cases h
    | some entry =>
      obtain ⟨nid, doc⟩ := entry
      rw [hlk] at h
      dsimp only at h
      cases hval : doc.validate with
      | none =>
        rw [hval] at h
        cases h
      | some nck =>
        rw [hval] at h
        dsimp only at h
        split at h
        · cases hns : neighbor_spatialized env sa nck nid with
          | error e =>
            rw [hns] at h
            cases h
          | ok npts =>
            rw [hns] at h
            cases h
            exact ⟨_, rfl⟩
        · cases h
          exact ⟨[], (List.append_nil _).symm⟩

/-- The whole neighbor loop can only append to the initial frame. -/
theorem foldlM_process_extends {Poly : Type} (env : AggEnv Poly)
    (sa : StudyArea) (cells : List Poly) (ps : List (Int × Int)) :
    ∀ (acc r : List SpatPred),
      ps.foldlM (process_neighbor env sa cells) acc = .ok r →
      ∃ rest, r = acc ++ rest := by
  induction ps with
  | nil =>
    intro acc r h
    simp only [List.foldlM_nil, except_pure_eq, Except.ok.injEq] at h
    exact ⟨[], by rw [← h, List.append_nil]⟩
  | cons a t ih =>
    intro acc r h
    rw [List.foldlM_cons] at h
    cases hsa : process_neighbor env sa cells acc a with
    | error e =>
      rw [hsa, except_bind_error] at h
      cases h
    | ok acc' =>
      rw [hsa, except_bind_ok] at h
      obtain ⟨r1, rfl⟩ := process_neighbor_extends env sa cells acc a acc' hsa
      obtain ⟨r2, rfl⟩ := ih _ _ h
      exact ⟨r1 ++ r2, List.append_assoc _ _ _⟩

/-- C3 (amended): whenever the Hex Aggregator succeeds, its result is the
per-hex `max` — uniformly, with no per-prediction-type choice of aggregation
function — of a combined point set that extends the own retained
points (by the neighbor points kept by the loop): each returned hex value is
the maximum, never the mean, of the contributing point values. -/
theorem c3_aggregation_amended {Poly : Type} (env : AggEnv Poly)
    (sa : StudyArea) (ck : Chunk) (cells : List Poly)
    (spat : List SpatPred) (m : List (String × ℚ))
    (h : aggregate_h3_predictions env sa ck cells spat = .ok m) :
    ∃ combined rest : List SpatPred,
      combined = spat ++ rest ∧
      m = groupby_max combined ∧
      ∀ (k : String) (v : ℚ), (k, v) ∈ m ↔
        (k ∈ combined.map SpatPred.h3_index ∧
          ((combined.filter (fun r => r.h3_index == k)).map
            SpatPred.prediction).max? = some v) := by
  unfold aggregate_h3_predictions at h
  split at h
  · cases h
    exact ⟨spat, [], (List.append_nil _).symm, rfl,
      fun k v => mem_groupby_max spat k v⟩
  · cases hfold : (neighbor_positions ck).foldlM
        (process_neighbor env sa cells) spat with
    | error e =>
      rw [hfold] at h
      cases h
    | ok combined =>
      rw [hfold] at h
      cases h
      obtain ⟨rest, hrest⟩ :=
        foldlM_process_extends env sa cells (neighbor_positions ck) spat
          combined hfold
      exact ⟨combined, rest, hrest, rfl,
        fun k v => mem_groupby_max combined k v⟩

/-- Witness for C3 (amended): on the concrete fixture the aggregator
succeeds, and its result decomposes as the per-hex max of the combined
point set. -/
theorem c3_aggregation_amended_witness :
    aggregate_h3_predictions c3_env c3_study_area c3_chunk [()] c3_points =
      .ok [("h3cell", 3)] ∧
    (∃ combined rest : List SpatPred,
      combined = c3_points ++ rest ∧
      [("h3cell", (3 : ℚ))] = groupby_max combined ∧
      ∀ (k : String) (v : ℚ), (k, v) ∈ [("h3cell", (3 : ℚ))] ↔
        (k ∈ combined.map SpatPred.h3_index ∧
          ((combined.filter (fun r => r.h3_index == k)).map
            SpatPred.prediction).max? = some v)) :=
  ⟨c3_eval,
   c3_aggregation_amended c3_env c3_study_area c3_chunk [()] c3_points
     [("h3cell", 3)] c3_eval⟩

end ClimateIQ
